import Mathlib

/-!
# Verification of the bunworks realtime subscription client

Shallow embedding of the realtime subscription client: the `TokenSubscription`
session (connection lifecycle, message dispatch, chunk-stream reassembly,
reconnect with backoff, teardown), the `StreamFanout` multicast engine, the
token-acquisition helpers, and the environment/boolean parsing utilities.

Pure functions of the source become Lean functions; the session's mutable
fields become an explicit `Session` state record threaded through the event
handlers.  WebSocket events (`onopen`, `onclose`, inbound frames, a userland
`close()` call) are an explicit event type, and traces are processed by a
fold, collecting the reconnection delays the source passes to `setTimeout`.
-/

namespace Bunworks

/-- A JSON-ish runtime value, the payload type flowing through the client.
Only the shapes the claims exercise are distinguished; `obj` and `arr`
stand for any object or array value. -/
inductive Val where
  | str (s : String)
  | num (n : Int)
  | bool (b : Bool)
  | nullV
  | undef
  | obj
  | arr
deriving DecidableEq, Repr

/-- Association-list lookup used for the session's topic map and the
open-chunk-stream table (source: a JS `Map` keyed by strings). -/
def lookupA {α : Type} : List (String × α) → String → Option α
  | [], _ => none
  | (k, v) :: rest, key => if k = key then some v else lookupA rest key

/-- Erase a key from an association list (source: `Map.delete`). -/
def eraseA {α : Type} : List (String × α) → String → List (String × α)
  | [], _ => []
  | (k, v) :: rest, key => if k = key then eraseA rest key else (k, v) :: eraseA rest key

/-- Outcome of a standard-schema validation call
(`schema["~standard"].validate(value)`): either a transformed value or a
non-empty list of issues.  The issues' content is irrelevant to the client,
which only branches on their presence. -/
inductive ValidationResult where
  | ok (value : Val)
  | issues
deriving DecidableEq, Repr

/-- A topic definition: a name plus an optional validating/transforming
schema (source: `TopicDefinitionImpl` in `topic.ts`, whose `getSchema()`
returns the schema or `undefined`). -/
structure TopicDef where
  name : String
  schema : Option (Val → ValidationResult)

/-- The message record the session writes to the fanout
(source: the object literals passed to `this.#fanout.write(...)`). -/
structure Message where
  channel : String
  topic : String
  kind : String
  data : Val
  streamId : Option String
  fnId : Option String
  runId : Option String
  envId : Option String
  /-- `created_at` field of the inbound frame; the source substitutes the
  current clock when it is absent, which we leave abstract as `none`. -/
  createdAt : Option String
  /-- Heap index of the chunk sub-stream handle carried by
  `datastream-start`/`chunk`/`datastream-end` messages. -/
  streamRef : Option Nat
deriving DecidableEq, Repr

/-- An inbound frame that passed envelope validation.  `channel`/`topic`
equal to `""` model an absent field (the source checks `!msg.channel`).
`streamId` is the `stream_id` field used by `chunk` frames. -/
structure InboundMsg where
  kind : String
  channel : String
  topic : String
  data : Val
  streamId : Option String
  fnId : Option String
  runId : Option String
  envId : Option String
  createdAt : Option String
deriving DecidableEq, Repr

/-- Modelled from the spec: the envelope schema `Realtime.messageSchema`
lives in `types.ts`, which is absent from the sources; per the spec every
inbound frame either fails envelope validation (and is dropped) or parses
to a message record, so a frame is either `malformed` or a parsed message. -/
inductive Frame where
  | malformed
  | msg (m : InboundMsg)
deriving DecidableEq, Repr

/-! ## Stream fanout -/

/-- One output stream of the fanout, as observed by its consumer: the values
delivered so far, whether it is still in the live set, and whether it has
observed a normal end-of-sequence. -/
structure FanoutStream where
  buffer : List Message
  live : Bool
  endedNormally : Bool
deriving DecidableEq, Repr

/-- Modelled from the spec: `StreamFanout.ts` is absent from the sources
(only its test suite is present); per spec section 4.1 the fanout keeps a
live set of output streams, `createStream` registers a new one receiving
only later writes, `write` appends the value to every live stream, and
`close` ends every live stream normally and clears the live set.  Streams
are kept in creation order; consumers hold indices into this list. -/
structure Fanout where
  streams : List FanoutStream
deriving DecidableEq, Repr

def Fanout.empty : Fanout := ⟨[]⟩

/-- Register a new output stream; it receives only values written later. -/
def Fanout.createStream (f : Fanout) : Fanout × Nat :=
  (⟨f.streams ++ [⟨[], true, false⟩]⟩, f.streams.length)

/-- Deliver a value to every live stream. -/
def Fanout.write (f : Fanout) (m : Message) : Fanout :=
  ⟨f.streams.map fun st => if st.live then { st with buffer := st.buffer ++ [m] } else st⟩

/-- Terminate every live stream with a normal end-of-sequence and clear the
live set. -/
def Fanout.close (f : Fanout) : Fanout :=
  ⟨f.streams.map fun st =>
    if st.live then { st with live := false, endedNormally := true } else st⟩

/-- A consumer cancels its own stream: it leaves the live set without
observing an end-of-sequence signal. -/
def Fanout.cancelStream (f : Fanout) (i : Nat) : Fanout :=
  ⟨f.streams.modify (fun st => { st with live := false }) i⟩

/-- Count of currently live output streams (source: `size()`). -/
def Fanout.size (f : Fanout) : Nat :=
  (f.streams.filter fun st => st.live).length

/-! ## Chunk streams -/

/-- Status of one chunk sub-stream object (a JS `ReadableStream` plus its
controller): still accepting chunks, closed normally by its controller, or
cancelled by its consumer. -/
inductive StreamStatus where
  | active
  | closed
  | cancelled
deriving DecidableEq, Repr

/-- One chunk sub-stream: the chunk values enqueued so far and its status.
The JS object outlives its entry in the session's open-stream table (the
consumer holds a reference), so sub-streams live in a heap indexed by
creation order and the table maps stream ids to heap indices. -/
structure ChunkStream where
  buffered : List Val
  status : StreamStatus
deriving DecidableEq, Repr

/-- `controller.enqueue(data)` wrapped in the source's try/catch: enqueueing
onto a non-active stream throws and the error is swallowed, leaving the
stream unchanged. -/
def ChunkStream.enqueue (cs : ChunkStream) (v : Val) : ChunkStream :=
  match cs.status with
  | .active => { cs with buffered := cs.buffered ++ [v] }
  | _ => cs

/-- `controller.close()` wrapped in the source's try/catch: closing a
non-active stream throws and the error is swallowed. -/
def ChunkStream.closeCtrl (cs : ChunkStream) : ChunkStream :=
  match cs.status with
  | .active => { cs with status := .closed }
  | _ => cs

/-! ## Session state -/

/-- Source: `#maxReconnectAttempts = 5`. -/
def maxReconnectAttempts : Nat := 5

/-- Source: `#reconnectDelay = 1000`. -/
def reconnectDelay : Nat := 1000

/-- The mutable state of a `TokenSubscription`, one field per private field
of the class that the verified behavior depends on.  `ws = true` models
`#ws !== null`; `opsStarted` counts the `#connect()` attempts ever started
so that attempt identities can be compared. -/
structure Session where
  running : Bool
  ws : Bool
  reconnectAttempts : Nat
  connectionPromise : Option Nat
  opsStarted : Nat
  topics : List (String × TopicDef)
  chunkTable : List (String × Nat)
  heap : List ChunkStream
  fanout : Fanout
  outbox : List String

/-- A fresh session before any connection attempt (constructor state). -/
def Session.init (topics : List (String × TopicDef)) : Session :=
  { running := false
    ws := false
    reconnectAttempts := 0
    connectionPromise := none
    opsStarted := 0
    topics := topics
    chunkTable := []
    heap := []
    fanout := Fanout.empty
    outbox := [] }

/-- Close the chunk stream at one heap reference (one iteration of the
source's teardown loop: `stream.controller.close()` inside try/catch). -/
def closeRef (heap : List ChunkStream) (ref : Nat) : List ChunkStream :=
  match heap.get? ref with
  | some cs => heap.set ref cs.closeCtrl
  | none => heap

/-- Close every chunk stream referenced by the open-stream table (source:
the `for (const [streamId, stream] of this.#chunkStreams.entries())` loop
calling `stream.controller.close()` inside try/catch). -/
def closeTableStreams : List (String × Nat) → List ChunkStream → List ChunkStream
  | [], heap => heap
  | (_, ref) :: rest, heap => closeTableStreams rest (closeRef heap ref)

/-! ## Message handlers (source: `TokenSubscription` private methods) -/

/-- The `data`-kind message the session emits for an inbound frame with
payload `v` (source: the object literal passed to `this.#fanout.write` in
`#handleDataMessage`). -/
def dataMsg (m : InboundMsg) (v : Val) : Message :=
  { channel := m.channel, topic := m.topic, data := v
    fnId := m.fnId, createdAt := m.createdAt, runId := m.runId
    kind := "data", envId := m.envId, streamId := none, streamRef := none }

/-- Source: `#handleDataMessage(msg)`.  Missing channel or topic, an
undeclared topic, or a schema rejection drop the frame; otherwise the
(possibly schema-transformed) payload is written to the fanout. -/
def handleDataMessage (m : InboundMsg) (s : Session) : Session :=
  if m.channel = "" then s
  else if m.topic = "" then s
  else
    match lookupA s.topics m.topic with
    | none => s
    | some tdef =>
      match tdef.schema with
      | some sch =>
        match sch m.data with
        | .issues => s
        | .ok v => { s with fanout := s.fanout.write (dataMsg m v) }
      | none => { s with fanout := s.fanout.write (dataMsg m m.data) }

/-- Source: `#handleDataStreamStart(msg)`.  The stream id travels in
`msg.data`; a missing channel/topic, a non-string or empty id, or an id
already in the open-stream table drop the frame; otherwise a fresh
sub-stream is registered and a `datastream-start` message carrying it is
written to the fanout. -/
def handleDataStreamStart (m : InboundMsg) (s : Session) : Session :=
  if m.channel = "" ∨ m.topic = "" then s
  else
    match m.data with
    | .str streamId =>
      if streamId = "" then s
      else if (lookupA s.chunkTable streamId).isSome then s
      else
        let ref := s.heap.length
        let out : Message :=
          { channel := m.channel, topic := m.topic, kind := "datastream-start"
            data := .str streamId, streamId := some streamId
            fnId := m.fnId, runId := m.runId, envId := none, createdAt := none
            streamRef := some ref }
        { s with
            heap := s.heap ++ [⟨[], .active⟩]
            chunkTable := (streamId, ref) :: s.chunkTable
            fanout := s.fanout.write out }
    | _ => s

/-- Source: `#handleDataStreamEnd(msg)`.  The stream id travels in
`msg.data`; an unknown id drops the frame; otherwise the sub-stream's
controller is closed (normal end-of-sequence), the table entry is removed,
and a `datastream-end` message is written to the fanout. -/
def handleDataStreamEnd (m : InboundMsg) (s : Session) : Session :=
  if m.channel = "" ∨ m.topic = "" then s
  else
    match m.data with
    | .str streamId =>
      if streamId = "" then s
      else
        match lookupA s.chunkTable streamId with
        | none => s
        | some ref =>
          let out : Message :=
            { channel := m.channel, topic := m.topic, kind := "datastream-end"
              data := .str streamId, streamId := some streamId
              fnId := m.fnId, runId := m.runId, envId := none, createdAt := none
              streamRef := some ref }
          let heap1 := match s.heap.get? ref with
                       | some cs => s.heap.set ref cs.closeCtrl
                       | none => s.heap
          { s with
              heap := heap1
              chunkTable := eraseA s.chunkTable streamId
              fanout := s.fanout.write out }
    | _ => s

/-- Source: `#handleChunk(msg)`.  The stream id travels in `msg.stream_id`;
an unknown id drops the frame; otherwise the chunk value is enqueued onto
the sub-stream (enqueue errors swallowed) and a `chunk` message is written
to the fanout. -/
def handleChunk (m : InboundMsg) (s : Session) : Session :=
  if m.channel = "" ∨ m.topic = "" then s
  else
    match m.streamId with
    | none => s
    | some sid =>
      if sid = "" then s
      else
        match lookupA s.chunkTable sid with
        | none => s
        | some ref =>
          let out : Message :=
            { channel := m.channel, topic := m.topic, kind := "chunk"
              data := m.data, streamId := some sid
              fnId := m.fnId, runId := m.runId, envId := none, createdAt := none
              streamRef := some ref }
          let heap1 := match s.heap.get? ref with
                       | some cs => s.heap.set ref (cs.enqueue m.data)
                       | none => s.heap
          { s with
              heap := heap1
              fanout := s.fanout.write out }

/-- Source: the `ping` branch of `#handleMessage`: reply `pong` on the open
socket; no fanout emission. -/
def handlePing (s : Session) : Session :=
  if s.ws then { s with outbox := s.outbox ++ ["pong"] } else s

/-- Source: `#handleMessage(event)`.  Frames failing envelope validation are
dropped; frames arriving while the session is not running are dropped; the
rest dispatch on `kind`, with unknown kinds logged and ignored. -/
def handleMessage (f : Frame) (s : Session) : Session :=
  match f with
  | .malformed => s
  | .msg m =>
    if ¬ s.running then s
    else
      match m.kind with
      | "data" => handleDataMessage m s
      | "datastream-start" => handleDataStreamStart m s
      | "datastream-end" => handleDataStreamEnd m s
      | "chunk" => handleChunk m s
      | "ping" => handlePing s
      | "closing" => s
      | _ => s

/-- Source: the `onopen` handler installed by `#connect()`: reset the
reconnect-attempt counter and mark the session running. -/
def handleOpen (s : Session) : Session :=
  { s with reconnectAttempts := 0, running := true }

/-- Source: `#handleClose(event)`.  Returns the new state together with the
reconnection delay passed to `setTimeout`, when one is scheduled.  All open
chunk streams are force-closed and the table cleared; a normal closure
(code 1000) or a closure while not running closes the fanout; an abnormal
closure while running schedules a reconnect with exponential backoff while
the attempt budget lasts, and closes the fanout once it is exhausted. -/
def handleClose (code : Nat) (s : Session) : Session × Option Nat :=
  let wasRunning := s.running
  let s1 : Session :=
    { s with running := false
             heap := closeTableStreams s.chunkTable s.heap
             chunkTable := [] }
  if code = 1000 ∨ wasRunning = false then
    ({ s1 with fanout := s1.fanout.close }, none)
  else if s.reconnectAttempts < maxReconnectAttempts then
    let attempts := s.reconnectAttempts + 1
    ({ s1 with reconnectAttempts := attempts },
     some (reconnectDelay * 2 ^ (attempts - 1)))
  else
    ({ s1 with fanout := s1.fanout.close }, none)

/-- Source: `#cleanupWebSocket()`: detach all callbacks and drop the socket
reference (actively closing it if still open). -/
def cleanupWebSocket (s : Session) : Session :=
  { s with ws := false }

/-- Source: `close(reason?)`.  A session that is not running and holds no
socket returns immediately; otherwise the running flag is cleared, the
attempt counter is pinned at the maximum to prevent reconnection, the
socket is cleaned up, every open chunk stream is force-closed and the
table cleared, and the fanout is closed. -/
def close (s : Session) : Session :=
  if s.running = false ∧ s.ws = false then s
  else
    let s1 := cleanupWebSocket
      { s with running := false, reconnectAttempts := maxReconnectAttempts }
    { s1 with
        heap := closeTableStreams s1.chunkTable s1.heap
        chunkTable := []
        fanout := s1.fanout.close }

/-- Source: `getJsonStream()`: a fresh fanout stream of raw messages. -/
def getJsonStream (s : Session) : Session × Nat :=
  let (f, i) := s.fanout.createStream
  ({ s with fanout := f }, i)

/-- Source: `connect()`.  Returns the identity of the connection attempt the
caller awaits, the new state, and whether this call started a new attempt.
A pending attempt is returned as-is; otherwise a fresh `#connect()`
operation is started and stored in `#connectionPromise`. -/
def connectCall (s : Session) : Nat × Session × Bool :=
  match s.connectionPromise with
  | some p => (p, s, false)
  | none =>
    (s.opsStarted,
     { s with connectionPromise := some s.opsStarted, opsStarted := s.opsStarted + 1 },
     true)

/-- Source: the `finally` block of `connect()`: once the awaited attempt
settles, the pending-operation reference is cleared. -/
def connectSettle (s : Session) : Session :=
  { s with connectionPromise := none }

/-- Number of connection attempts currently in flight. -/
def inFlight (s : Session) : Nat :=
  match s.connectionPromise with
  | some _ => 1
  | none => 0

/-! ## Event traces -/

/-- An externally visible event acting on the session: the socket opening,
the socket closing with a close code, an inbound frame, or a userland
`close()` call. -/
inductive Ev where
  | openEv
  | closeEv (code : Nat)
  | frameEv (f : Frame)
  | userClose
deriving DecidableEq, Repr

/-- One event step; the second component is the reconnection delay scheduled
by this step, if any. -/
def stepEv (s : Session) (e : Ev) : Session × Option Nat :=
  match e with
  | .openEv => (handleOpen s, none)
  | .closeEv code => handleClose code s
  | .frameEv f => (handleMessage f s, none)
  | .userClose => (close s, none)

/-- Process a trace of events, collecting every scheduled reconnection delay
in order. -/
def runTrace (s : Session) : List Ev → Session × List Nat
  | [] => (s, [])
  | e :: rest =>
    ((runTrace (stepEv s e).1 rest).1,
     (stepEv s e).2.toList ++ (runTrace (stepEv s e).1 rest).2)

/-- A trace containing no socket-open event (one streak of consecutive
failures: the attempt counter is never reset within it). -/
def noOpen (tr : List Ev) : Prop := ∀ e ∈ tr, e ≠ Ev.openEv

instance (tr : List Ev) : Decidable (noOpen tr) := by
  unfold noOpen; infer_instance

/-! ## Token acquisition helpers -/

/-- Source: `getSubscriptionToken` in `subscribe/helpers.ts`.  `apiResult`
models the value of `await app.api?.getSubscriptionToken?.(channelId,
topics)`: `none` when the capability is absent or the promise resolves to
`undefined`; the source's `!key` guard also rejects an empty string.
The error strings are the source's literal (Russian) messages. -/
def helpersGetSubscriptionToken (channelId : String) (topics : List String)
    (apiResult : Option String) : Except String (String × List String × String) :=
  if channelId = "" then
    .error "Требуется ID канала для создания токена подписки"
  else
    match apiResult with
    | none => .error "Не удалось получить токен подписки"
    | some k =>
      if k = "" then .error "Не удалось получить токен подписки"
      else .ok (channelId, topics, k)

/-- Source: `TokenSubscription.lazilyGetSubscriptionToken`.  Returns the key
field of the constructed token (`api.getSubscriptionToken` may resolve to a
missing key, which the caller checks). -/
def lazilyGetSubscriptionToken (channelId : String) (apiResult : Option String) :
    Except String (Option String) :=
  if channelId = "" then
    .error "Channel ID is required to create a subscription token"
  else
    .ok apiResult

/-- Source: the key-resolution prefix of `TokenSubscription.#connect`: if the
subscription token lacks a key (absent or empty, per the `!key` guard), one
is derived via `lazilyGetSubscriptionToken`; a still-missing key rejects
the connect operation. -/
def resolveConnectKey (tokenKey : Option String) (channelId : String)
    (apiResult : Option String) : Except String String :=
  let key := tokenKey.getD ""
  if key ≠ "" then .ok key
  else
    match lazilyGetSubscriptionToken channelId apiResult with
    | .error e => .error e
    | .ok derived =>
      match derived with
      | some k =>
        if k = "" then
          .error "No subscription token key provided and failed to retrieve one automatically"
        else .ok k
      | none =>
        .error "No subscription token key provided and failed to retrieve one automatically"

/-! ## Utility functions (`util.ts`) -/

/-- Whitespace-trimming on a character list (JS `String.prototype.trim`,
restricted to the ASCII whitespace the recognized forms use). -/
def trimChars (l : List Char) : List Char :=
  ((l.dropWhile fun c => c.isWhitespace).reverse.dropWhile fun c => c.isWhitespace).reverse

/-- The trimmed, lower-cased character sequence of a string
(JS `value.trim().toLowerCase()`). -/
def normChars (s : String) : List Char :=
  (trimChars s.data).map Char.toLower

/-- Modelled from the spec: `util.ts` is absent from the sources, so
`parseAsBoolean` is reconstructed from spec section 6's boolean-ish parsing
rules, refined by the function's complete test suite (present in the
sources), which additionally pins that boolean inputs are returned as-is,
numeric inputs are coerced to their truthiness, and the empty string parses
to `false` rather than to unset. -/
def parseAsBoolean : Val → Option Bool
  | .bool b => some b
  | .num n => some (decide (n ≠ 0))
  | .str s =>
    let t := normChars s
    if t = "undefined".data then none
    else some (decide (t = "true".data ∨ t = "1".data))
  | _ => none

/-- An HTTP response as far as the token fetch observes it. -/
structure FetchResponse where
  ok : Bool
  status : Nat
deriving DecidableEq, Repr

/-- The Authorization header attached to a request for a given credential
(absent credential, absent header). -/
def authHeader (t : Option String) : Option String :=
  t.map fun tok => "Bearer " ++ tok

/-- Modelled from the spec: `util.ts` is absent from the sources, so
`fetchWithAuthFallback` is reconstructed from spec section 4.3 (corroborated
by its test suite in the sources): issue the request with the primary
credential; retry exactly once with the fallback credential when and only
when the response status is 401 or 403 and a fallback was supplied; surface
any other failure immediately.  `respond n` is the response the remote gives
to the n-th request; the second component returned is the Authorization
header of every request actually issued, in order. -/
def fetchWithAuthFallback (respond : Nat → FetchResponse)
    (authToken authTokenFallback : Option String) :
    FetchResponse × List (Option String) :=
  let r1 := respond 0
  if (r1.status = 401 ∨ r1.status = 403) ∧ authTokenFallback.isSome then
    (respond 1, [authHeader authToken, authHeader authTokenFallback])
  else
    (r1, [authHeader authToken])

/-! ## Character-sequence containment (for checking error-message text) -/

/-- Whether the second character list is an initial segment of the first. -/
def leadsWith : List Char → List Char → Bool
  | _, [] => true
  | [], _ :: _ => false
  | c :: cs, d :: ds => decide (c = d) && leadsWith cs ds

/-- Whether the second character list occurs contiguously inside the first. -/
def containsSeq : List Char → List Char → Bool
  | [], needle => needle.isEmpty
  | c :: rest, needle => leadsWith (c :: rest) needle || containsSeq rest needle

/-! ## Concrete instances used to exercise the definitions -/

/-- A schema accepting non-negative numbers and transforming them by
incrementing, rejecting everything else. -/
def sampleSchema : Val → ValidationResult
  | .num n => if 0 ≤ n then .ok (.num (n + 1)) else .issues
  | _ => .issues

/-- Two declared topics: one schema-validated, one bare. -/
def sampleTopics : List (String × TopicDef) :=
  [("t", { name := "t", schema := some sampleSchema }),
   ("plain", { name := "plain", schema := none })]

/-- A running session over the sample topics (a fresh session brought up by
the socket-open event). -/
def sampleSession : Session := handleOpen (Session.init sampleTopics)

/-- A `data` frame for the schema-validated topic with an accepted payload. -/
def sampleDataMsg : InboundMsg :=
  { kind := "data", channel := "ch", topic := "t", data := .num 3
    streamId := none, fnId := none, runId := none, envId := none, createdAt := none }

/-- A `data` frame for the schema-validated topic with a rejected payload. -/
def sampleBadDataMsg : InboundMsg := { sampleDataMsg with data := .str "nope" }

/-- A `data` frame for the schema-less topic. -/
def samplePlainMsg : InboundMsg := { sampleDataMsg with topic := "plain", data := .str "v" }

/-- A `datastream-start` frame for stream id `sid`. -/
def startMsg (ch tp sid : String) : InboundMsg :=
  { kind := "datastream-start", channel := ch, topic := tp, data := .str sid
    streamId := none, fnId := none, runId := none, envId := none, createdAt := none }

/-- A `chunk` frame carrying value `v` for stream id `sid`. -/
def chunkMsg (ch tp sid : String) (v : Val) : InboundMsg :=
  { kind := "chunk", channel := ch, topic := tp, data := v
    streamId := some sid, fnId := none, runId := none, envId := none, createdAt := none }

/-- A `datastream-end` frame for stream id `sid`. -/
def endMsg (ch tp sid : String) : InboundMsg :=
  { kind := "datastream-end", channel := ch, topic := tp, data := .str sid
    streamId := none, fnId := none, runId := none, envId := none, createdAt := none }

/-- Process a list of inbound frames in arrival order. -/
def processFrames (s : Session) (fs : List Frame) : Session :=
  fs.foldl (fun st f => handleMessage f st) s

/-- The chunk-reassembly scenario of the spec: open stream `A`, deliver
chunks `"x"` and `"y"`, close it. -/
def reassemblySeq : List Frame :=
  [.msg (startMsg "ch" "t" "A"), .msg (chunkMsg "ch" "t" "A" (.str "x")),
   .msg (chunkMsg "ch" "t" "A" (.str "y")), .msg (endMsg "ch" "t" "A")]

/-- The sample session after a consumer grabbed a JSON stream and stream `A`
was opened: one live fanout stream, one open chunk stream. -/
def sampleOpenSession : Session :=
  handleMessage (.msg (startMsg "ch" "t" "A")) (getJsonStream sampleSession).1

/-- A fresh, never-connected session on which a consumer already obtained a
JSON stream. -/
def idleWithStream : Session := (getJsonStream (Session.init sampleTopics)).1

/-! ## Supporting lemmas -/

theorem lookupA_cons_self {α : Type} (k : String) (v : α) (t : List (String × α)) :
    lookupA ((k, v) :: t) k = some v := by
  simp [lookupA]

theorem eraseA_of_lookupA_none {α : Type} (t : List (String × α)) (k : String)
    (h : lookupA t k = none) : eraseA t k = t := by
  induction t with
  | nil => rfl
  | cons hd tl ih =>
    obtain ⟨k1, v1⟩ := hd
    by_cases hk : k1 = k
    · simp [lookupA, hk] at h
    · simp only [eraseA, if_neg hk]
      rw [ih (by simpa [lookupA, hk] using h)]

theorem getConcatLength {α : Type} (l : List α) (a : α) :
    (l ++ [a]).get? l.length = some a := by
  induction l with
  | nil => rfl
  | cons x xs ih => simp [ih]

theorem setConcatLength {α : Type} (l : List α) (a b : α) :
    (l ++ [a]).set l.length b = l ++ [b] := by
  induction l with
  | nil => rfl
  | cons x xs ih => simp [List.set, ih]

theorem closeCtrl_idem (cs : ChunkStream) : cs.closeCtrl.closeCtrl = cs.closeCtrl := by
  unfold ChunkStream.closeCtrl
  cases h : cs.status <;> simp [h]

/-- Effect of a valid `datastream-start` frame on the table, heap and
running flag. -/
theorem startStep (s : Session) (ch tp sid : String)
    (hrun : s.running = true) (hch : ch ≠ "") (htp : tp ≠ "") (hsid : sid ≠ "")
    (hlk : lookupA s.chunkTable sid = none) :
    (handleMessage (.msg (startMsg ch tp sid)) s).chunkTable
        = (sid, s.heap.length) :: s.chunkTable
    ∧ (handleMessage (.msg (startMsg ch tp sid)) s).heap = s.heap ++ [⟨[], .active⟩]
    ∧ (handleMessage (.msg (startMsg ch tp sid)) s).running = true := by
  simp [handleMessage, hrun, startMsg, handleDataStreamStart, hch, htp, hsid, hlk]

/-- Effect of a `chunk` frame for an open stream on the table, heap and
running flag. -/
theorem chunkStep (s : Session) (ch tp sid : String) (v : Val) (ref : Nat)
    (cs : ChunkStream)
    (hrun : s.running = true) (hch : ch ≠ "") (htp : tp ≠ "") (hsid : sid ≠ "")
    (hlk : lookupA s.chunkTable sid = some ref) (hget : s.heap.get? ref = some cs) :
    (handleMessage (.msg (chunkMsg ch tp sid v)) s).chunkTable = s.chunkTable
    ∧ (handleMessage (.msg (chunkMsg ch tp sid v)) s).heap
        = s.heap.set ref (cs.enqueue v)
    ∧ (handleMessage (.msg (chunkMsg ch tp sid v)) s).running = true := by
  have hget2 : s.heap[ref]? = some cs := by
    rw [← List.get?_eq_getElem?]
    exact hget
  simp [handleMessage, hrun, chunkMsg, handleChunk, hch, htp, hsid, hlk, hget2]

/-- Effect of a `datastream-end` frame for an open stream on the table, heap
and running flag. -/
theorem endStep (s : Session) (ch tp sid : String) (ref : Nat) (cs : ChunkStream)
    (hrun : s.running = true) (hch : ch ≠ "") (htp : tp ≠ "") (hsid : sid ≠ "")
    (hlk : lookupA s.chunkTable sid = some ref) (hget : s.heap.get? ref = some cs) :
    (handleMessage (.msg (endMsg ch tp sid)) s).chunkTable = eraseA s.chunkTable sid
    ∧ (handleMessage (.msg (endMsg ch tp sid)) s).heap = s.heap.set ref cs.closeCtrl
    ∧ (handleMessage (.msg (endMsg ch tp sid)) s).running = true := by
  have hget2 : s.heap[ref]? = some cs := by
    rw [← List.get?_eq_getElem?]
    exact hget
  simp [handleMessage, hrun, endMsg, handleDataStreamEnd, hch, htp, hsid, hlk, hget2]

/-- Every branch of the close handler clears the running flag. -/
theorem handleClose_running_false (code : Nat) (s : Session) :
    (handleClose code s).1.running = false := by
  simp only [handleClose]
  split_ifs <;> rfl

/-- A frame arriving while the session is not running is dropped. -/
theorem handleMessage_not_running (f : Frame) (s : Session) (h : s.running = false) :
    handleMessage f s = s := by
  cases f with
  | malformed => rfl
  | msg m => simp [handleMessage, h]

/-- After `close()` the session is never running: either the early-return
guard held (so it was not running) or the running flag was cleared. -/
theorem close_running_false (s : Session) :
    (close s).running = false := by
  unfold close
  by_cases hg : s.running = false ∧ s.ws = false
  · simp [hg]
  · simp [hg, cleanupWebSocket]

/-- `close()` on a session that is not running and holds no socket returns
the state unchanged (the source's early-return guard). -/
theorem close_eq_self_of_idle (s : Session) (h1 : s.running = false)
    (h2 : s.ws = false) : close s = s := by
  unfold close
  simp [h1, h2]

/-- No event other than a socket open restarts the session or schedules a
reconnection once the session stopped running. -/
theorem stepEv_not_running (e : Ev) (s : Session) (he : e ≠ Ev.openEv)
    (h : s.running = false) :
    (stepEv s e).1.running = false ∧ (stepEv s e).2 = none := by
  cases e with
  | openEv => exact absurd rfl he
  | closeEv code =>
    refine ⟨handleClose_running_false code s, ?_⟩
    simp [stepEv, handleClose, h]
  | frameEv f =>
    simp [stepEv, handleMessage_not_running f s h, h]
  | userClose =>
    exact ⟨close_running_false s, rfl⟩

/-- A stopped session processing a trace without a socket open schedules no
reconnection and stays stopped. -/
theorem runTrace_no_sched (tr : List Ev) (hno : noOpen tr) :
    ∀ s : Session, s.running = false →
      (runTrace s tr).2 = [] ∧ (runTrace s tr).1.running = false := by
  induction tr with
  | nil => exact fun s h => ⟨rfl, h⟩
  | cons e rest ih =>
    intro s h
    have he : e ≠ Ev.openEv := hno e (List.mem_cons_self e rest)
    have hrest : noOpen rest := fun x hx => hno x (List.mem_cons_of_mem _ hx)
    obtain ⟨h1, h2⟩ := stepEv_not_running e s he h
    obtain ⟨h3, h4⟩ := ih hrest (stepEv s e).1 h1
    exact ⟨by simp [runTrace, h2, h3], by simp [runTrace, h4]⟩

/-- The only event that can schedule a reconnection is a socket close, and it
leaves the session stopped. -/
theorem sched_running_false (e : Ev) (s : Session) (d : Nat)
    (h : (stepEv s e).2 = some d) : (stepEv s e).1.running = false := by
  cases e with
  | openEv => simp [stepEv] at h
  | closeEv code => exact handleClose_running_false code s
  | frameEv f => simp [stepEv] at h
  | userClose => simp [stepEv] at h

/-- Within a trace containing no socket open, at most one reconnection is
scheduled: the first scheduling stops the session, and a stopped session
schedules nothing further. -/
theorem runTrace_sched_le_one (tr : List Ev) (hno : noOpen tr) :
    ∀ s : Session, (runTrace s tr).2.length ≤ 1 := by
  induction tr with
  | nil => intro s; simp [runTrace]
  | cons e rest ih =>
    intro s
    have hrest : noOpen rest := fun x hx => hno x (List.mem_cons_of_mem _ hx)
    cases hd : (stepEv s e).2 with
    | none => simpa [runTrace, hd] using ih hrest (stepEv s e).1
    | some d =>
      have hr := sched_running_false e s d hd
      have hnil := (runTrace_no_sched rest hrest (stepEv s e).1 hr).1
      simp [runTrace, hd, hnil]

theorem chain_of_length_le_one (l : List Nat) (h : l.length ≤ 1) :
    List.Chain' (fun a b => a ≤ b) l := by
  match l with
  | [] => exact List.chain'_nil
  | [a] => exact List.chain'_singleton a
  | a :: b :: rest => simp at h

/-- Closing the fanout empties the live set. -/
theorem fanout_close_size (f : Fanout) : f.close.size = 0 := by
  unfold Fanout.close Fanout.size
  rw [List.length_eq_zero, List.filter_eq_nil_iff]
  intro st hst
  simp only [List.mem_map] at hst
  obtain ⟨st0, _, rfl⟩ := hst
  by_cases h : st0.live <;> simp [h]

/-- A close event on a stopped session takes the normal-closure branch:
the fanout is closed and nothing is scheduled. -/
theorem handleClose_not_running (code : Nat) (s : Session) (h : s.running = false) :
    (handleClose code s).1.fanout = s.fanout.close ∧ (handleClose code s).2 = none := by
  simp [handleClose, h]

/-- After at least one close event, a stopped session's fanout has no live
streams left. -/
theorem runTrace_replicate_close_size (code : Nat) :
    ∀ k : Nat, 1 ≤ k → ∀ s : Session, s.running = false →
      ((runTrace s (List.replicate k (Ev.closeEv code))).1).fanout.size = 0 := by
  intro k
  induction k with
  | zero => exact fun h => absurd h (by decide)
  | succ j ih =>
    intro _ s h
    rw [List.replicate_succ]
    cases j with
    | zero =>
      simp only [List.replicate, runTrace]
      rw [show (stepEv s (Ev.closeEv code)).1 = (handleClose code s).1 from rfl,
        (handleClose_not_running code s h).1]
      exact fanout_close_size _
    | succ i =>
      have h1 : (stepEv s (Ev.closeEv code)).1.running = false :=
        handleClose_running_false code s
      simpa [runTrace] using ih (by omega) (stepEv s (Ev.closeEv code)).1 h1

/-- Closing one heap reference closes exactly that stream. -/
theorem closeRef_get_self (heap : List ChunkStream) (ref : Nat) :
    (closeRef heap ref).get? ref = (heap.get? ref).map ChunkStream.closeCtrl := by
  unfold closeRef
  cases h : heap.get? ref with
  | none => simp only [h]; rfl
  | some cs =>
    simp only [h, Option.map_some']
    rw [List.get?_set_eq, h]
    rfl

/-- Closing one heap reference leaves every other index unchanged. -/
theorem closeRef_get_other (heap : List ChunkStream) (ref x : Nat) (hx : ref ≠ x) :
    (closeRef heap ref).get? x = heap.get? x := by
  unfold closeRef
  cases h : heap.get? ref with
  | none => rfl
  | some cs => exact List.get?_set_ne _ _ hx

/-- The teardown loop does not touch heap entries the table does not
reference. -/
theorem closeTableStreams_get_not_mem :
    ∀ (table : List (String × Nat)) (heap : List ChunkStream) (x : Nat),
      x ∉ table.map Prod.snd →
      (closeTableStreams table heap).get? x = heap.get? x := by
  intro table
  induction table with
  | nil => intro heap x _; rfl
  | cons hd rest ih =>
    intro heap x hx
    obtain ⟨k, r⟩ := hd
    simp only [List.map_cons, List.mem_cons] at hx
    push_neg at hx
    rw [show closeTableStreams ((k, r) :: rest) heap
        = closeTableStreams rest (closeRef heap r) from rfl]
    rw [ih (closeRef heap r) x hx.2, closeRef_get_other heap r x (Ne.symm hx.1)]

/-- The teardown loop closes every heap entry the table references. -/
theorem closeTableStreams_get_mem :
    ∀ (table : List (String × Nat)) (heap : List ChunkStream) (x : Nat),
      x ∈ table.map Prod.snd →
      (closeTableStreams table heap).get? x
        = (heap.get? x).map ChunkStream.closeCtrl := by
  intro table
  induction table with
  | nil => intro heap x hx; simp at hx
  | cons hd rest ih =>
    intro heap x hx
    obtain ⟨k, r⟩ := hd
    rw [show closeTableStreams ((k, r) :: rest) heap
        = closeTableStreams rest (closeRef heap r) from rfl]
    by_cases hmem : x ∈ rest.map Prod.snd
    · rw [ih (closeRef heap r) x hmem]
      by_cases hxr : x = r
      · subst hxr
        rw [closeRef_get_self]
        cases h : heap.get? x <;> simp [h, closeCtrl_idem]
      · rw [closeRef_get_other heap r x (fun hh => hxr hh.symm)]
    · have hxr : x = r := by
        simp only [List.map_cons, List.mem_cons] at hx
        tauto
      subst hxr
      rw [closeTableStreams_get_not_mem rest (closeRef heap x) x hmem]
      exact closeRef_get_self heap x

/-- The state `close()` produces when the early-return guard does not hold:
running flag cleared, attempt counter pinned, socket released, every
table-referenced chunk stream closed, table cleared, fanout closed. -/
theorem close_eq_of_running (s : Session) (hrun : s.running = true) :
    close s = { s with
                  running := false
                  reconnectAttempts := maxReconnectAttempts
                  ws := false
                  heap := closeTableStreams s.chunkTable s.heap
                  chunkTable := []
                  fanout := s.fanout.close } := by
  have hguard : ¬ (s.running = false ∧ s.ws = false) := by simp [hrun]
  simp [close, cleanupWebSocket, hguard]

/-! ## Claim theorems -/

/-- C3.  Connect coalescing: a `connect()` call finding a pending connection
operation returns that same operation unchanged and starts nothing; a call
finding none starts exactly one fresh attempt, which a subsequent call then
coalesces onto; at most one connection attempt is in flight at any time. -/
theorem C3_connect_coalescing :
    (∀ (s : Session) (p : Nat), s.connectionPromise = some p →
      connectCall s = (p, s, false))
    ∧ (∀ s : Session, s.connectionPromise = none →
      (connectCall s).1 = s.opsStarted
      ∧ (connectCall s).2.2 = true
      ∧ (connectCall s).2.1.connectionPromise = some s.opsStarted
      ∧ (connectCall s).2.1.opsStarted = s.opsStarted + 1
      ∧ connectCall (connectCall s).2.1 = (s.opsStarted, (connectCall s).2.1, false))
    ∧ (∀ s : Session, inFlight s ≤ 1) := by
  refine ⟨?_, ?_, ?_⟩
  · intro s p h
    simp [connectCall, h]
  · intro s h
    simp [connectCall, h]
  · intro s
    unfold inFlight
    cases s.connectionPromise <;> simp

/-- Witness for C3 at a concrete fresh session: the first call starts attempt
0 and a second call returns the same pending attempt without starting a new
one. -/
theorem C3_connect_coalescing_witness :
    (connectCall (Session.init sampleTopics)).1 = 0
    ∧ (connectCall (Session.init sampleTopics)).2.2 = true
    ∧ connectCall (connectCall (Session.init sampleTopics)).2.1
        = (0, (connectCall (Session.init sampleTopics)).2.1, false) := by
  have h := C3_connect_coalescing.2.1 (Session.init sampleTopics) rfl
  exact ⟨h.1, h.2.1, h.2.2.2.2⟩

/-- C7.  Token fallback: the first request always carries the primary
credential; when and only when its status is 401 or 403 and a fallback
credential was supplied, exactly one retry is issued with the fallback
credential and the retry's response is returned (two requests in total);
otherwise the first response is returned after exactly one request. -/
theorem C7_token_fallback :
    ∀ (respond : Nat → FetchResponse) (primary fallback : Option String),
      (fetchWithAuthFallback respond primary fallback).2.head? = some (authHeader primary)
      ∧ (((respond 0).status = 401 ∨ (respond 0).status = 403) → ∀ fb, fallback = some fb →
          fetchWithAuthFallback respond primary fallback
            = (respond 1, [authHeader primary, authHeader fallback]))
      ∧ ((¬ ((respond 0).status = 401 ∨ (respond 0).status = 403) ∨ fallback = none) →
          fetchWithAuthFallback respond primary fallback
            = (respond 0, [authHeader primary])) := by
  intro respond primary fallback
  by_cases hc : ((respond 0).status = 401 ∨ (respond 0).status = 403) ∧ fallback.isSome
  · refine ⟨?_, ?_, ?_⟩
    · simp [fetchWithAuthFallback, hc]
    · intro _ fb hfb
      simp [fetchWithAuthFallback, hc, hfb]
    · intro h
      rcases h with h | h
      · exact absurd hc.1 h
      · rw [h] at hc
        simp at hc
  · refine ⟨?_, ?_, ?_⟩
    · simp [fetchWithAuthFallback, hc]
    · intro h1 fb hfb
      exact absurd ⟨h1, by simp [hfb]⟩ hc
    · intro _
      simp [fetchWithAuthFallback, hc]

/-- Witness for C7: a 401 on the primary credential followed by a 200 on the
fallback yields the fallback response with exactly two requests, bearing the
primary then the fallback credential. -/
theorem C7_token_fallback_witness :
    fetchWithAuthFallback (fun n => if n = 0 then ⟨false, 401⟩ else ⟨true, 200⟩)
        (some "test-token") (some "fallback-token")
      = (⟨true, 200⟩, [some "Bearer test-token", some "Bearer fallback-token"]) := by
  have h := (C7_token_fallback (fun n => if n = 0 then ⟨false, 401⟩ else ⟨true, 200⟩)
      (some "test-token") (some "fallback-token")).2.1 (by simp) "fallback-token" rfl
  simpa [authHeader] using h

/-- C9 counterexample: the claim says a non-string or empty input yields
unset, but the reconstructed function (pinned by its test suite) maps the
empty string to `false`, a boolean to itself and a nonzero number to
`true`. -/
theorem C9_parse_boolean_counterexample :
    parseAsBoolean (.str "") = some false
    ∧ parseAsBoolean (.bool true) = some true
    ∧ parseAsBoolean (.num 1) = some true := by
  refine ⟨by decide, rfl, by decide⟩

/-- C9 amended.  After trimming and lower-casing: `"true"`/`"1"` parse to
`true`; the literal `"undefined"` parses to unset; every other string —
including the empty string — parses to `false`; a boolean input is returned
as-is; a number input parses to `false` exactly when it is zero; any other
non-string input (null, undefined, object, array) yields unset. -/
theorem C9_parse_boolean_amended :
    (∀ s : String, normChars s = "true".data ∨ normChars s = "1".data →
        parseAsBoolean (.str s) = some true)
    ∧ (∀ s : String, normChars s = "undefined".data → parseAsBoolean (.str s) = none)
    ∧ (∀ s : String, normChars s ≠ "true".data → normChars s ≠ "1".data →
        normChars s ≠ "undefined".data → parseAsBoolean (.str s) = some false)
    ∧ (∀ b : Bool, parseAsBoolean (.bool b) = some b)
    ∧ (∀ n : Int, n ≠ 0 → parseAsBoolean (.num n) = some true)
    ∧ (∀ n : Int, n = 0 → parseAsBoolean (.num n) = some false)
    ∧ parseAsBoolean .nullV = none ∧ parseAsBoolean .undef = none
    ∧ parseAsBoolean .obj = none ∧ parseAsBoolean .arr = none := by
  refine ⟨?_, ?_, ?_, ?_, ?_, ?_, rfl, rfl, rfl, rfl⟩
  · intro s h
    have hne : normChars s ≠ "undefined".data := by
      rcases h with h | h <;> rw [h] <;> decide
    simp [parseAsBoolean, hne, h]
  · intro s h
    simp [parseAsBoolean, h]
  · intro s h1 h2 h3
    simp [parseAsBoolean, h1, h2, h3]
  · intro b
    rfl
  · intro n h
    simp [parseAsBoolean, h]
  · intro n h
    simp [parseAsBoolean, h]

/-- Witness for C9's amended theorem at concrete inputs: a padded upper-case
TRUE parses to `true`, a padded `undefined` to unset, and `no` to `false`. -/
theorem C9_parse_boolean_amended_witness :
    parseAsBoolean (.str " TRUE ") = some true
    ∧ parseAsBoolean (.str "  undefined  ") = none
    ∧ parseAsBoolean (.str "no") = some false := by
  refine ⟨?_, ?_, ?_⟩
  · exact C9_parse_boolean_amended.1 " TRUE " (Or.inl (by decide))
  · exact C9_parse_boolean_amended.2.1 "  undefined  " (by decide)
  · exact C9_parse_boolean_amended.2.2.1 "no" (by decide) (by decide) (by decide)

/-- C6.  The repository's token-acquisition helper (`getSubscriptionToken`
in `subscribe/helpers.ts`) raises Russian-language error messages on a
missing channel id and on a missing token, while the claim — and the
repository's own test suite — expect messages containing the English texts
`Channel ID is required` and `Failed to get subscription token`; neither
English text occurs in the raised message. -/
theorem C6_token_error_messages :
    helpersGetSubscriptionToken "" ["topic1"] (some "test-token")
        = .error "Требуется ID канала для создания токена подписки"
    ∧ helpersGetSubscriptionToken "test-channel" ["topic1"] none
        = .error "Не удалось получить токен подписки"
    ∧ containsSeq "Требуется ID канала для создания токена подписки".data
        "Channel ID is required".data = false
    ∧ containsSeq "Не удалось получить токен подписки".data
        "Failed to get subscription token".data = false := by
  refine ⟨rfl, rfl, by decide, by decide⟩

/-- C10.  Calling `close()` on a session that is not running and holds no
socket is a complete no-op: the state — in particular the fanout and every
consumer stream previously obtained from it — is unchanged, so no stream
observes an end-of-sequence. -/
theorem C10_close_noop :
    ∀ s : Session, s.running = false → s.ws = false →
      close s = s ∧ (close s).fanout = s.fanout := by
  intro s h1 h2
  have he : close s = s := by
    unfold close
    simp [h1, h2]
  exact ⟨he, by rw [he]⟩

/-- Witness for C10 at a never-connected session holding a consumer
stream. -/
theorem C10_close_noop_witness :
    close idleWithStream = idleWithStream
    ∧ (close idleWithStream).fanout = idleWithStream.fanout :=
  C10_close_noop idleWithStream rfl rfl

/-- C5.  Schema gate, on a running session and a `data` frame for a declared
topic: a schema rejection drops the frame entirely (the state, hence the
fanout and every consumer stream, is unchanged — no delivery and no error);
a schema acceptance delivers the schema's transformed value to the fanout;
a topic without a schema delivers the payload unchanged. -/
theorem C5_schema_gate :
    ∀ (s : Session) (m : InboundMsg) (tdef : TopicDef),
      s.running = true → m.kind = "data" → m.channel ≠ "" → m.topic ≠ "" →
      lookupA s.topics m.topic = some tdef →
      ((∀ sch, tdef.schema = some sch → sch m.data = .issues →
          handleMessage (.msg m) s = s)
       ∧ (∀ sch v, tdef.schema = some sch → sch m.data = .ok v →
          handleMessage (.msg m) s = { s with fanout := s.fanout.write (dataMsg m v) })
       ∧ (tdef.schema = none →
          handleMessage (.msg m) s = { s with fanout := s.fanout.write (dataMsg m m.data) })) := by
  intro s m tdef hrun hkind hch htp hlk
  obtain ⟨k, ch, tp, d, sid, fid, rid, eid, ca⟩ := m
  simp only [InboundMsg.mk.injEq] at hkind ⊢
  simp only at hch htp hlk
  subst hkind
  have hbase : handleMessage (.msg ⟨"data", ch, tp, d, sid, fid, rid, eid, ca⟩) s
      = handleDataMessage ⟨"data", ch, tp, d, sid, fid, rid, eid, ca⟩ s := by
    simp [handleMessage, hrun]
  refine ⟨?_, ?_, ?_⟩
  · intro sch hsch hiss
    rw [hbase]
    simp [handleDataMessage, hch, htp, hlk, hsch, hiss]
  · intro sch v hsch hok
    rw [hbase]
    simp [handleDataMessage, hch, htp, hlk, hsch, hok, dataMsg]
  · intro hsch
    rw [hbase]
    simp [handleDataMessage, hch, htp, hlk, hsch, dataMsg]

/-- Witness for C5 at the sample session: the rejected payload is dropped,
the accepted payload arrives transformed (3 becomes 4), and the bare topic
delivers its payload unchanged. -/
theorem C5_schema_gate_witness :
    handleMessage (.msg sampleBadDataMsg) sampleSession = sampleSession
    ∧ handleMessage (.msg sampleDataMsg) sampleSession
        = { sampleSession with
              fanout := sampleSession.fanout.write (dataMsg sampleDataMsg (.num 4)) }
    ∧ handleMessage (.msg samplePlainMsg) sampleSession
        = { sampleSession with
              fanout := sampleSession.fanout.write (dataMsg samplePlainMsg (.str "v")) } := by
  refine ⟨?_, ?_, ?_⟩
  · exact (C5_schema_gate sampleSession sampleBadDataMsg ⟨"t", some sampleSchema⟩
      rfl rfl (by decide) (by decide) rfl).1 sampleSchema rfl (by decide)
  · exact (C5_schema_gate sampleSession sampleDataMsg ⟨"t", some sampleSchema⟩
      rfl rfl (by decide) (by decide) rfl).2.1 sampleSchema (.num 4) rfl (by decide)
  · exact (C5_schema_gate sampleSession samplePlainMsg ⟨"plain", none⟩
      rfl rfl (by decide) (by decide) rfl).2.2 rfl

/-- C8.  Protocol-error resilience: a malformed frame, an unknown message
kind, a `data` frame for an undeclared topic, a `chunk` or `datastream-end`
frame for an unknown stream id, and a duplicate `datastream-start` are all
dropped leaving the session state entirely unchanged — the session keeps
running, the transport stays, and no consumer stream observes an error or
an end. -/
theorem C8_protocol_resilience :
    (∀ s : Session, handleMessage .malformed s = s)
    ∧ (∀ (s : Session) (m : InboundMsg),
        m.kind ∉ (["data", "datastream-start", "datastream-end", "chunk", "ping",
                   "closing"] : List String) →
        handleMessage (.msg m) s = s)
    ∧ (∀ (s : Session) (m : InboundMsg), m.kind = "data" →
        lookupA s.topics m.topic = none → handleMessage (.msg m) s = s)
    ∧ (∀ (s : Session) (m : InboundMsg) (sid : String), m.kind = "chunk" →
        m.streamId = some sid → lookupA s.chunkTable sid = none →
        handleMessage (.msg m) s = s)
    ∧ (∀ (s : Session) (m : InboundMsg) (sid : String), m.kind = "datastream-end" →
        m.data = .str sid → lookupA s.chunkTable sid = none →
        handleMessage (.msg m) s = s)
    ∧ (∀ (s : Session) (m : InboundMsg) (sid : String) (ref : Nat),
        m.kind = "datastream-start" →
        m.data = .str sid → lookupA s.chunkTable sid = some ref →
        handleMessage (.msg m) s = s) := by
  refine ⟨fun s => rfl, ?_, ?_, ?_, ?_, ?_⟩
  · intro s m hk
    unfold handleMessage
    by_cases hr : s.running = true
    · simp only [hr, not_true_eq_false, if_false]
      split <;> simp_all
    · simp [hr]
  · intro s m hkind hlk
    obtain ⟨k, ch, tp, d, sid, fid, rid, eid, ca⟩ := m
    simp only at hkind hlk
    subst hkind
    by_cases hr : s.running = true
    · simp [handleMessage, hr, handleDataMessage, hlk]
    · simp [handleMessage, hr]
  · intro s m sid hkind hsid hlk
    obtain ⟨k, ch, tp, d, sid0, fid, rid, eid, ca⟩ := m
    simp only at hkind hsid hlk
    subst hkind
    subst hsid
    by_cases hr : s.running = true
    · simp [handleMessage, hr, handleChunk, hlk]
    · simp [handleMessage, hr]
  · intro s m sid hkind hdata hlk
    obtain ⟨k, ch, tp, d, sid0, fid, rid, eid, ca⟩ := m
    simp only at hkind hdata hlk
    subst hkind
    subst hdata
    by_cases hr : s.running = true
    · simp [handleMessage, hr, handleDataStreamEnd, hlk]
    · simp [handleMessage, hr]
  · intro s m sid ref hkind hdata hlk
    obtain ⟨k, ch, tp, d, sid0, fid, rid, eid, ca⟩ := m
    simp only at hkind hdata hlk
    subst hkind
    subst hdata
    by_cases hr : s.running = true
    · simp [handleMessage, hr, handleDataStreamStart, hlk]
    · simp [handleMessage, hr]

/-- Witness for C8 at the sample sessions: an unknown kind, an undeclared
topic, a chunk and an end for the unopened stream id B, and a duplicate
start for the already-open stream id A are all exact no-ops. -/
theorem C8_protocol_resilience_witness :
    handleMessage (.msg { sampleDataMsg with kind := "mystery" }) sampleSession = sampleSession
    ∧ handleMessage (.msg { sampleDataMsg with topic := "other" }) sampleSession = sampleSession
    ∧ handleMessage (.msg (chunkMsg "ch" "t" "B" (.str "z"))) sampleSession = sampleSession
    ∧ handleMessage (.msg (endMsg "ch" "t" "B")) sampleSession = sampleSession
    ∧ handleMessage (.msg (startMsg "ch" "t" "A")) sampleOpenSession = sampleOpenSession := by
  refine ⟨?_, ?_, ?_, ?_, ?_⟩
  · exact C8_protocol_resilience.2.1 sampleSession _ (by decide)
  · exact C8_protocol_resilience.2.2.1 sampleSession _ rfl rfl
  · exact C8_protocol_resilience.2.2.2.1 sampleSession _ "B" rfl rfl rfl
  · exact C8_protocol_resilience.2.2.2.2.1 sampleSession _ "B" rfl rfl rfl
  · exact C8_protocol_resilience.2.2.2.2.2 sampleOpenSession _ "A" 0 rfl rfl (by decide)

/-- C1.  Chunk reassembly: on any running session with stream id A unopened,
processing start(A), chunk(A,"x"), chunk(A,"y"), end(A) leaves the created
sub-stream holding exactly "x" then "y", closed normally, with the
open-stream table exactly as before (entry A removed, all other entries
untouched); and a `chunk` or `datastream-end` frame whose stream id is not
in the open-stream table is a complete no-op on the session state. -/
theorem C1_chunk_reassembly :
    (∀ s : Session, s.running = true → lookupA s.chunkTable "A" = none →
      (processFrames s reassemblySeq).heap.get? s.heap.length
          = some ⟨[.str "x", .str "y"], .closed⟩
      ∧ (processFrames s reassemblySeq).chunkTable = s.chunkTable)
    ∧ (∀ (s : Session) (m : InboundMsg) (sid : String), m.kind = "chunk" →
        m.streamId = some sid → lookupA s.chunkTable sid = none →
        handleMessage (.msg m) s = s)
    ∧ (∀ (s : Session) (m : InboundMsg) (sid : String), m.kind = "datastream-end" →
        m.data = .str sid → lookupA s.chunkTable sid = none →
        handleMessage (.msg m) s = s) := by
  refine ⟨?_, ?_, ?_⟩
  · intro s hrun hlk
    have hPF : processFrames s reassemblySeq
        = handleMessage (.msg (endMsg "ch" "t" "A"))
            (handleMessage (.msg (chunkMsg "ch" "t" "A" (.str "y")))
              (handleMessage (.msg (chunkMsg "ch" "t" "A" (.str "x")))
                (handleMessage (.msg (startMsg "ch" "t" "A")) s))) := rfl
    obtain ⟨t1, p1, r1⟩ :=
      startStep s "ch" "t" "A" hrun (by decide) (by decide) (by decide) hlk
    set s1 := handleMessage (.msg (startMsg "ch" "t" "A")) s with hs1
    have hlk1 : lookupA s1.chunkTable "A" = some s.heap.length := by
      rw [t1]
      exact lookupA_cons_self _ _ _
    have hget1 : s1.heap.get? s.heap.length = some ⟨[], .active⟩ := by
      rw [p1]
      exact getConcatLength _ _
    obtain ⟨t2, p2, r2⟩ := chunkStep s1 "ch" "t" "A" (.str "x") s.heap.length
      ⟨[], .active⟩ r1 (by decide) (by decide) (by decide) hlk1 hget1
    set s2 := handleMessage (.msg (chunkMsg "ch" "t" "A" (.str "x"))) s1 with hs2
    have p2h : s2.heap = s.heap ++ [⟨[.str "x"], .active⟩] := by
      rw [p2, p1]
      exact setConcatLength _ _ _
    have t2h : s2.chunkTable = ("A", s.heap.length) :: s.chunkTable := by
      rw [t2, t1]
    have hlk2 : lookupA s2.chunkTable "A" = some s.heap.length := by
      rw [t2h]
      exact lookupA_cons_self _ _ _
    have hget2 : s2.heap.get? s.heap.length = some ⟨[.str "x"], .active⟩ := by
      rw [p2h]
      exact getConcatLength _ _
    obtain ⟨t3, p3, r3⟩ := chunkStep s2 "ch" "t" "A" (.str "y") s.heap.length
      ⟨[.str "x"], .active⟩ r2 (by decide) (by decide) (by decide) hlk2 hget2
    set s3 := handleMessage (.msg (chunkMsg "ch" "t" "A" (.str "y"))) s2 with hs3
    have p3h : s3.heap = s.heap ++ [⟨[.str "x", .str "y"], .active⟩] := by
      rw [p3, p2h]
      exact setConcatLength _ _ _
    have t3h : s3.chunkTable = ("A", s.heap.length) :: s.chunkTable := by
      rw [t3, t2h]
    have hlk3 : lookupA s3.chunkTable "A" = some s.heap.length := by
      rw [t3h]
      exact lookupA_cons_self _ _ _
    have hget3 : s3.heap.get? s.heap.length
        = some ⟨[.str "x", .str "y"], .active⟩ := by
      rw [p3h]
      exact getConcatLength _ _
    obtain ⟨t4, p4, _⟩ := endStep s3 "ch" "t" "A" s.heap.length
      ⟨[.str "x", .str "y"], .active⟩ r3 (by decide) (by decide) (by decide) hlk3 hget3
    rw [hPF]
    constructor
    · rw [p4, p3h]
      rw [setConcatLength]
      exact getConcatLength _ _
    · rw [t4, t3h]
      have : eraseA (("A", s.heap.length) :: s.chunkTable) "A"
          = eraseA s.chunkTable "A" := by
        simp [eraseA]
      rw [this]
      exact eraseA_of_lookupA_none _ _ hlk
  · intro s m sid hkind hsid hlk
    obtain ⟨k, ch, tp, d, sid0, fid, rid, eid, ca⟩ := m
    simp only at hkind hsid hlk
    subst hkind
    subst hsid
    by_cases hr : s.running = true
    · simp [handleMessage, hr, handleChunk, hlk]
    · simp [handleMessage, hr]
  · intro s m sid hkind hdata hlk
    obtain ⟨k, ch, tp, d, sid0, fid, rid, eid, ca⟩ := m
    simp only at hkind hdata hlk
    subst hkind
    subst hdata
    by_cases hr : s.running = true
    · simp [handleMessage, hr, handleDataStreamEnd, hlk]
    · simp [handleMessage, hr]

/-- Witness for C1 at the sample session: the four-frame sequence leaves
sub-stream 0 holding "x","y" closed, with an empty table; and a chunk and
an end for the unopened id Z are exact no-ops. -/
theorem C1_chunk_reassembly_witness :
    (processFrames sampleSession reassemblySeq).heap.get? 0
        = some ⟨[.str "x", .str "y"], .closed⟩
    ∧ (processFrames sampleSession reassemblySeq).chunkTable = []
    ∧ handleMessage (.msg (chunkMsg "ch" "t" "Z" (.str "q"))) sampleSession = sampleSession
    ∧ handleMessage (.msg (endMsg "ch" "t" "Z")) sampleSession = sampleSession := by
  refine ⟨(C1_chunk_reassembly.1 sampleSession rfl rfl).1,
          (C1_chunk_reassembly.1 sampleSession rfl rfl).2, ?_, ?_⟩
  · exact C1_chunk_reassembly.2.1 sampleSession _ "Z" rfl rfl rfl
  · exact C1_chunk_reassembly.2.2 sampleSession _ "Z" rfl rfl rfl

/-- C2.  Reconnect bound and backoff, read per streak of consecutive
failures (the spec's "N consecutive abnormal closures"), since a successful
open resets the attempt counter: an abnormal closure while running and
under budget schedules exactly one reconnect with delay
base × 2^(attempt − 1) and increments the counter; with the budget
exhausted it closes the fanout and schedules nothing; a stopped session
schedules nothing; within any trace without a successful open at most the
maximum number of attempts is scheduled, with non-decreasing delays; a
successful open resets the counter to 0 and after max-attempts-plus-one
consecutive abnormal closures the fanout has no live streams left. -/
theorem C2_reconnect_backoff :
    (∀ (s : Session) (code : Nat), s.running = true → code ≠ 1000 →
      s.reconnectAttempts < maxReconnectAttempts →
      (handleClose code s).2
          = some (reconnectDelay * 2 ^ ((s.reconnectAttempts + 1) - 1))
      ∧ (handleClose code s).1.reconnectAttempts = s.reconnectAttempts + 1)
    ∧ (∀ (s : Session) (code : Nat), s.running = true → code ≠ 1000 →
      maxReconnectAttempts ≤ s.reconnectAttempts →
      (handleClose code s).2 = none
      ∧ (handleClose code s).1.fanout = s.fanout.close
      ∧ (handleClose code s).1.running = false)
    ∧ (∀ (tr : List Ev) (s : Session), noOpen tr → s.running = false →
        (runTrace s tr).2 = [])
    ∧ (∀ (tr : List Ev) (s : Session), noOpen tr →
        (runTrace s tr).2.length ≤ maxReconnectAttempts)
    ∧ (∀ (tr : List Ev) (s : Session), noOpen tr →
        List.Chain' (fun a b => a ≤ b) (runTrace s tr).2)
    ∧ (∀ s : Session,
        (handleOpen s).reconnectAttempts = 0 ∧ (handleOpen s).running = true)
    ∧ (∀ s : Session, s.running = true →
        ((runTrace s
            (List.replicate (maxReconnectAttempts + 1) (Ev.closeEv 1006))).1).fanout.size
          = 0) := by
  refine ⟨?_, ?_, ?_, ?_, ?_, ?_, ?_⟩
  · intro s code hrun hc ha
    constructor <;> simp [handleClose, hrun, hc, ha]
  · intro s code hrun hc ha
    refine ⟨?_, ?_, ?_⟩ <;> simp [handleClose, hrun, hc, Nat.not_lt.mpr ha]
  · intro tr s hno h
    exact (runTrace_no_sched tr hno s h).1
  · intro tr s hno
    exact le_trans (runTrace_sched_le_one tr hno s) (by decide)
  · intro tr s hno
    exact chain_of_length_le_one _ (runTrace_sched_le_one tr hno s)
  · intro s
    exact ⟨rfl, rfl⟩
  · intro s _
    rw [show maxReconnectAttempts + 1 = 5 + 1 from rfl, List.replicate_succ]
    have h1 : (stepEv s (Ev.closeEv 1006)).1.running = false :=
      handleClose_running_false 1006 s
    simpa [runTrace] using
      runTrace_replicate_close_size 1006 5 (by decide)
        (stepEv s (Ev.closeEv 1006)).1 h1

/-- Witness for C2 at the sample session (attempt counter 0): the first
abnormal closure schedules a 1000 ms reconnect and sets the counter to 1;
a two-closure streak schedules at most the budget; six consecutive abnormal
closures leave the fanout with no live streams; and an open resets the
counter. -/
theorem C2_reconnect_backoff_witness :
    (handleClose 1006 sampleSession).2 = some 1000
    ∧ (handleClose 1006 sampleSession).1.reconnectAttempts = 1
    ∧ (runTrace sampleSession
        (List.replicate 2 (Ev.closeEv 1006))).2.length ≤ maxReconnectAttempts
    ∧ ((runTrace sampleSession
        (List.replicate (maxReconnectAttempts + 1) (Ev.closeEv 1006))).1).fanout.size = 0
    ∧ (handleOpen sampleSession).reconnectAttempts = 0 := by
  have h1 := C2_reconnect_backoff.1 sampleSession 1006 rfl (by decide) (by decide)
  refine ⟨?_, h1.2, ?_, ?_, ?_⟩
  · simpa [reconnectDelay] using h1.1
  · exact C2_reconnect_backoff.2.2.2.1 (List.replicate 2 (Ev.closeEv 1006))
      sampleSession (by decide)
  · exact C2_reconnect_backoff.2.2.2.2.2.2 sampleSession rfl
  · exact (C2_reconnect_backoff.2.2.2.2.2.1 sampleSession).1

/-- C4.  Close semantics on a session whose connection was established
(running): `close()` clears the running flag, pins the attempt counter at
the maximum and releases the socket (disabling reconnection: no trace
without a successful open ever schedules one afterwards), force-closes
every chunk stream the open-stream table references and clears the table,
and closes the fanout so that every previously obtained live consumer
stream observes a normal end-of-sequence (not an error); a second `close()`
is a no-op. -/
theorem C4_close_semantics :
    ∀ s : Session, s.running = true →
      (close s).running = false
      ∧ (close s).reconnectAttempts = maxReconnectAttempts
      ∧ (close s).ws = false
      ∧ (close s).chunkTable = []
      ∧ (∀ x ∈ s.chunkTable.map Prod.snd,
          (close s).heap.get? x = (s.heap.get? x).map ChunkStream.closeCtrl)
      ∧ (close s).fanout = s.fanout.close
      ∧ (∀ (i : Nat) (st : FanoutStream), s.fanout.streams.get? i = some st →
          st.live = true →
          (close s).fanout.streams.get? i
            = some { st with live := false, endedNormally := true })
      ∧ (∀ tr, noOpen tr → (runTrace (close s) tr).2 = [])
      ∧ close (close s) = close s := by
  intro s hrun
  have hc := close_eq_of_running s hrun
  refine ⟨by rw [hc], by rw [hc], by rw [hc], by rw [hc], ?_, by rw [hc], ?_, ?_, ?_⟩
  · intro x hx
    rw [hc]
    exact closeTableStreams_get_mem s.chunkTable s.heap x hx
  · intro i st hst hlive
    rw [hc]
    simp only [Fanout.close, List.get?_map, hst, Option.map_some']
    rw [if_pos hlive]
  · intro tr hno
    exact (runTrace_no_sched tr hno (close s) (close_running_false s)).1
  · exact close_eq_self_of_idle (close s) (close_running_false s) (by rw [hc])

/-- Witness for C4 at the open sample session (running, one open chunk
stream, one live consumer stream): after `close()` the session is stopped,
the table is empty, chunk stream 0 is closed, the previously live consumer
stream observes a normal end, and a second `close()` changes nothing. -/
theorem C4_close_semantics_witness :
    (close sampleOpenSession).running = false
    ∧ (close sampleOpenSession).chunkTable = []
    ∧ (close sampleOpenSession).heap.get? 0 = some ⟨[], .closed⟩
    ∧ (close sampleOpenSession).fanout.streams.get? 0
        = some { buffer := [{ channel := "ch", topic := "t"
                              kind := "datastream-start", data := .str "A"
                              streamId := some "A", fnId := none, runId := none
                              envId := none, createdAt := none, streamRef := some 0 }]
                 live := false, endedNormally := true }
    ∧ close (close sampleOpenSession) = close sampleOpenSession := by
  have h := C4_close_semantics sampleOpenSession rfl
  refine ⟨h.1, h.2.2.2.1, ?_, ?_, h.2.2.2.2.2.2.2.2⟩
  · have hx := h.2.2.2.2.1 0 (by decide)
    rw [hx]
    rfl
  · exact h.2.2.2.2.2.2.1 0
      { buffer := [{ channel := "ch", topic := "t"
                     kind := "datastream-start", data := .str "A"
                     streamId := some "A", fnId := none, runId := none
                     envId := none, createdAt := none, streamRef := some 0 }]
        live := true, endedNormally := false }
      (by decide) rfl

end Bunworks
